import Mathlib

/-!
Shallow embedding of the CoDWR access module (ulmo.codwr.core): the
division/district resolver (get_water_district), the station aggregator
(get_station) and the session manager (_get_client, embedded here as
get_client).  The remote SOAP service is an external collaborator and is
modelled as an oracle structure (SudsService) carrying the data each remote
operation would return; every function of the module is translated into a
pure Lean function over that oracle.  Python exceptions become an explicit
error type carried in Except.
-/

namespace Codwr

/-- Dynamic Python value appearing in caller-supplied filters: the module
only distinguishes int and str elements (via runtime type checks). -/
inductive PyVal where
  | vInt : Int → PyVal
  | vStr : String → PyVal
deriving DecidableEq, Repr

/-- A caller-supplied argument that may be a scalar or already a list
(the source promotes scalars to singleton lists). -/
inductive PyArg where
  | scalar : PyVal → PyArg
  | list : List PyVal → PyArg
deriving DecidableEq, Repr

/-- Runtime type test modelling the Python check `type(v) is int`. -/
def PyVal.isInt : PyVal → Bool
  | .vInt _ => true
  | .vStr _ => false

/-- Runtime type test modelling the Python check `type(v) is str`. -/
def PyVal.isStr : PyVal → Bool
  | .vInt _ => false
  | .vStr _ => true

/-- Test that two dynamic values have the same runtime type, modelling
`type(w) is type(wd[0])`. -/
def PyVal.sameKind : PyVal → PyVal → Bool
  | .vInt _, .vInt _ => true
  | .vStr _, .vStr _ => true
  | _, _ => false

/-- Normalization step `if type(x) is not list: x = [x]` from the source. -/
def ensureList : PyArg → List PyVal
  | .scalar v => [v]
  | .list l => l

/-- Errors raised by the module.  Each constructor corresponds to one raise
site of the source: invalidFilterType to the filter-validation asserts,
indexError to evaluating `wd[0]` on an empty list, missingParameterData to
the two ValueError raises, unmatchedStationParameters to the KeyError from
`params[sited[abbrev]]`, and inconsistentRemoteData to the abbreviation
assert in the by-abbreviation loop. -/
inductive CodwrError where
  | invalidFilterType
  | indexError
  | missingParameterData
  | unmatchedStationParameters
  | inconsistentRemoteData
deriving DecidableEq, Repr

/-- A water-district catalog record as the source consumes it: the fields
`div`, `wd` and `waterDistrictName` read by the filtering and aggregation
logic (remaining remote attributes are passed through unchanged and play no
role in the behavior under study). -/
structure WaterDistrict where
  div : Int
  wd : Int
  waterDistrictName : String
deriving DecidableEq, Repr

/-- One raw parameter row from the remote service: a (station abbreviation,
variable name) pair.  The source fields named `abbrev` and `variable` are
rendered as `abbrevName` and `variableName` because both are Lean
keywords. -/
structure StationVariable where
  abbrevName : String
  variableName : String
deriving DecidableEq, Repr

/-- A station record as the source consumes and augments it: remote fields
`abbrev`, `div`, `wd` and an optional `parameters` attribute (the
by-abbreviation branch reads it before ever writing it, so the remote record
must carry it, possibly null), plus the `waterDistrictName` key the module
adds (absent until assigned); the source field `abbrev` is rendered
`abbrevName` because `abbrev` is a Lean keyword. -/
structure Station where
  abbrevName : String
  div : Int
  wd : Int
  parameters : Option (List String)
  waterDistrictName : Option String
deriving DecidableEq, Repr

/-- Oracle for the remote SOAP service.  `transmittingStations` models
GetSMSTransmittingStations(div, wd) returning an optional station list;
`transmittingStationByAbbrev` models GetSMSTransmittingStations(0, 0, a)
whose result the source treats as a single station record (it takes a
dynamic value because the by-abbreviation filter may pass unvalidated
elements through); `stationVariables` and `stationVariablesByAbbrev` model
the two forms of GetSMSTransmittingStationVariables; `waterDistricts`
models GetWaterDistricts. -/
structure SudsService where
  waterDistricts : List WaterDistrict
  transmittingStations : Int → Int → Option (List Station)
  transmittingStationByAbbrev : PyVal → Option Station
  stationVariables : Int → Int → Option (List StationVariable)
  stationVariablesByAbbrev : Int → Int → String → Option (List StationVariable)

/-- Case-insensitive substring test used by the resolver, modelling the
Python expression `str.lower(frag) in str.lower(name)`. -/
def strLowerIn (frag name : String) : Bool :=
  let n := frag.toList.map Char.toLower
  let h := name.toList.map Char.toLower
  (List.range (h.length + 1)).any fun i => List.take n.length (List.drop i h) == n

/-- The result pattern `xs if len(xs) > 0 else None` closing both
get_water_district and get_station: the accumulated sequence when nonempty,
absent otherwise. -/
def nonEmptyOpt {α : Type} (l : List α) : Option (List α) :=
  if l.length > 0 then some l else none

/-- The inner predicate `district_matches` of get_water_district: on a
numeric filter, the [0] sentinel or membership of the district id; on a
string filter, some fragment is a case-insensitive substring of the district
name.  The int branch is selected exactly when the first element is an int,
as in the source; a non-string element in the string branch is unreachable
after the homogeneity assert. -/
def district_matches (wd : List PyVal) (tgt : WaterDistrict) : Bool :=
  match wd with
  | PyVal.vInt _ :: _ =>
    wd == [PyVal.vInt 0] || wd.contains (PyVal.vInt tgt.wd)
  | _ =>
    wd.any fun frag =>
      match frag with
      | PyVal.vStr s => strLowerIn s tgt.waterDistrictName
      | PyVal.vInt _ => false

/-- Embedding of get_water_district (as_dataframe false; the tabular
conversion is an external collaborator).  Scalars are promoted to lists,
the division elements must all be ints, the district list must be nonempty
(the source evaluates `wd[0]`) and homogeneous, and the catalog is filtered
by division membership and `district_matches`; an empty filtered list is
returned as an absent value. -/
def get_water_district (svc : SudsService) (div wd : PyArg) :
    Except CodwrError (Option (List WaterDistrict)) :=
  let divL := ensureList div
  if !(divL.all PyVal.isInt) then .error .invalidFilterType
  else
    let wdL := ensureList wd
    match wdL with
    | [] => .error .indexError
    | w0 :: ws =>
      if !((w0 :: ws).all (PyVal.sameKind w0)) then .error .invalidFilterType
      else
        .ok (nonEmptyOpt (svc.waterDistricts.filter fun wdx =>
          (divL == [PyVal.vInt 0] || divL.contains (PyVal.vInt wdx.div)) &&
          district_matches (w0 :: ws) wdx))

/-- Ordered variable names of one station extracted from the parameter rows:
the value the source dict `params` associates with an abbreviation (rows
grouped by abbreviation, row order preserved); the key is present in the
dict exactly when this list is nonempty. -/
def paramsFor (rows : List StationVariable) (a : String) : List String :=
  (rows.filter fun r => r.abbrevName == a).map fun r => r.variableName

/-- Builds the per-district station records of the by-district branch: each
station gets the district name and its grouped parameter list; a station
whose abbreviation has no parameter row raises the lookup error (the
KeyError of `params[sited[abbrev]]`). -/
def buildStations (d : WaterDistrict) (rows : List StationVariable) :
    List Station → Except CodwrError (List Station)
  | [] => .ok []
  | site :: rest =>
    if (rows.filter fun r => r.abbrevName == site.abbrevName).isEmpty then
      .error .unmatchedStationParameters
    else
      match buildStations d rows rest with
      | .error e => .error e
      | .ok more =>
        .ok ({ site with
                waterDistrictName := some d.waterDistrictName,
                parameters := some (paramsFor rows site.abbrevName) } :: more)

/-- The by-district loop of get_station (Mode A): per resolved district,
fetch the station list (a missing list aborts the whole aggregation with an
absent result) and the parameter rows (missing rows while the station list
is present raise), then build the records; results of all districts are
concatenated in order. -/
def modeA_loop (svc : SudsService) :
    List WaterDistrict → Except CodwrError (Option (List Station))
  | [] => .ok (some [])
  | d :: rest =>
    match svc.transmittingStations d.div d.wd with
    | none => .ok none
    | some sites =>
      match svc.stationVariables d.div d.wd with
      | none => .error .missingParameterData
      | some rows =>
        match buildStations d rows sites with
        | .error e => .error e
        | .ok recs =>
          match modeA_loop svc rest with
          | .error e => .error e
          | .ok none => .ok none
          | .ok (some more) => .ok (some (recs ++ more))

/-- Attaches the district name to a station looked up by abbreviation: the
first catalog entry with matching division and district id supplies the
name; with no match the record is left unchanged. -/
def attachDistrictName (dists : List WaterDistrict) (site : Station) : Station :=
  match dists.find? fun d => d.div == site.div && d.wd == site.wd with
  | some d => { site with waterDistrictName := some d.waterDistrictName }
  | none => site

/-- The per-row append loop of the by-abbreviation branch: a null parameter
list is first replaced by an empty one, then the row abbreviation is
asserted to match the station being processed (mismatch raises), then the
variable name is appended. -/
def appendVars (ab : String) :
    Option (List String) → List StationVariable →
    Except CodwrError (Option (List String))
  | ps, [] => .ok ps
  | ps, r :: rs =>
    let ps' := (ps.getD [])
    if r.abbrevName == ab then
      appendVars ab (some (ps' ++ [r.variableName])) rs
    else .error .inconsistentRemoteData

/-- Processing of one abbreviation in the by-abbreviation branch (Mode B):
lookup the station (a missing station is skipped, yielding an absent
record), attach the district name, fetch the parameter rows scoped to the
station (missing rows raise), and append the variable names.  The caller in
the source never appends the built record to its accumulator. -/
def modeB_station (svc : SudsService) (dists : List WaterDistrict)
    (a : PyVal) : Except CodwrError (Option Station) :=
  match svc.transmittingStationByAbbrev a with
  | none => .ok none
  | some site =>
    let sited := attachDistrictName dists site
    match svc.stationVariablesByAbbrev sited.div sited.wd sited.abbrevName with
    | none => .error .missingParameterData
    | some rows =>
      match appendVars sited.abbrevName sited.parameters rows with
      | .error e => .error e
      | .ok ps => .ok (some { sited with parameters := ps })

/-- The by-abbreviation loop of get_station: each abbreviation is processed
in order for its effects (errors); the record built for it is dropped, as
in the source, where no statement adds it to the `stations` list. -/
def modeB_loop (svc : SudsService) (dists : List WaterDistrict) :
    List PyVal → Except CodwrError Unit
  | [] => .ok ()
  | a :: rest =>
    match modeB_station svc dists a with
    | .error e => .error e
    | .ok _ => modeB_loop svc dists rest

/-- Normalization and validation of the station filter at the top of
get_station: an absent filter stays absent, a list is passed through
without any element check, and a scalar is promoted to a singleton and must
be a string. -/
def checkAbbrev : Option PyArg → Except CodwrError (Option (List PyVal))
  | none => .ok none
  | some (PyArg.list l) => .ok (some l)
  | some (PyArg.scalar v) =>
    if v.isStr then .ok (some [v]) else .error .invalidFilterType

/-- Embedding of get_station (as_dataframe false, no input or output file;
the session manager is modelled separately and does not influence the
returned data).  Division and district arguments are promoted to lists, the
station filter is checked, districts are resolved (an absent resolution
makes the whole call absent in both modes), and then either the by-district
loop runs and its accumulated records are returned (absent when empty), or
the by-abbreviation loop runs and the untouched empty accumulator makes the
result absent. -/
def get_station (svc : SudsService) (div wd : PyArg)
    (abbrevFilter : Option PyArg) : Except CodwrError (Option (List Station)) :=
  let divL := ensureList div
  let wdL := ensureList wd
  match checkAbbrev abbrevFilter with
  | .error e => .error e
  | .ok abbrevL =>
    match get_water_district svc (PyArg.list divL) (PyArg.list wdL) with
    | .error e => .error e
    | .ok none => .ok none
    | .ok (some dists) =>
      match abbrevL with
      | none =>
        match modeA_loop svc dists with
        | .error e => .error e
        | .ok none => .ok none
        | .ok (some stations) => .ok (nonEmptyOpt stations)
      | some abbrevs =>
        match modeB_loop svc dists abbrevs with
        | .error e => .error e
        | .ok _ =>
          let stations : List Station := []
          .ok (nonEmptyOpt stations)

/-- Cache policy argument of the session manager: the null value disables
caching, the one-element default tuple selects the fixed one-day window,
and a (unit, amount) tuple selects an explicit window. -/
inductive CachePolicy where
  | off
  | defaultTuple
  | tuple : String → Int → CachePolicy
deriving DecidableEq, Repr

/-- A constructed suds client handle: the service address it was built for,
the cache duration applied to it, and an identity tag distinguishing
distinct handle instances. -/
structure SudsClientObj where
  wsdlUrl : String
  cacheDuration : Option (String × Int)
  clientId : Nat
deriving DecidableEq, Repr

/-- The process-wide mutable state of the session manager: the optional
live handle (the source global `_suds_client`) plus a counter supplying
fresh identity tags. -/
structure ClientState where
  suds_client : Option SudsClientObj
  nextId : Nat
deriving DecidableEq, Repr

/-- Construction of a new client handle for a service address, applying the
cache policy: caching off, the one-day default, or the explicit duration.
The new handle replaces the stored one. -/
def mkNewClient (st : ClientState) (wsdl_url : String)
    (cache_duration : CachePolicy) : SudsClientObj × ClientState :=
  let c : SudsClientObj :=
    { wsdlUrl := wsdl_url
      cacheDuration :=
        match cache_duration with
        | .off => none
        | .defaultTuple => some ("days", 1)
        | .tuple u n => some (u, n)
      clientId := st.nextId }
  (c, { suds_client := some c, nextId := st.nextId + 1 })

/-- Embedding of _get_client: the stored handle is returned unchanged when
it exists and was built for the same service address; otherwise a new
handle is constructed (with the cache policy applied) and replaces the old
one. -/
def get_client (st : ClientState) (wsdl_url : String)
    (cache_duration : CachePolicy) : SudsClientObj × ClientState :=
  match st.suds_client with
  | some c =>
    if c.wsdlUrl == wsdl_url then (c, st)
    else mkNewClient st wsdl_url cache_duration
  | none => mkNewClient st wsdl_url cache_duration

/-- Concrete service fixture: a one-district catalog with two stations
reachable by abbreviation, each publishing one parameter row. -/
def svcMain : SudsService where
  waterDistricts := [⟨1, 1, "District One"⟩]
  transmittingStations := fun _ _ => none
  transmittingStationByAbbrev := fun a =>
    if a == PyVal.vStr "A1" then some ⟨"A1", 1, 1, none, none⟩
    else if a == PyVal.vStr "A2" then some ⟨"A2", 1, 1, none, none⟩
    else none
  stationVariables := fun _ _ => none
  stationVariablesByAbbrev := fun _ _ ab =>
    if ab == "A1" then some [⟨"A1", "AIRTEMP"⟩]
    else if ab == "A2" then some [⟨"A2", "DISCHRG"⟩]
    else none

/-- Concrete service fixture: one district, one station reachable by
abbreviation, and a parameter-listing call that returns no data. -/
def svcNoParams : SudsService where
  waterDistricts := [⟨1, 1, "X"⟩]
  transmittingStations := fun _ _ => none
  transmittingStationByAbbrev := fun a =>
    if a == PyVal.vStr "A1" then some ⟨"A1", 1, 1, none, none⟩ else none
  stationVariables := fun _ _ => none
  stationVariablesByAbbrev := fun _ _ _ => none

/-- Concrete service fixture for the by-district mode: one district with
one station and one matching parameter row. -/
def svcOneGood : SudsService where
  waterDistricts := [⟨1, 1, "D1"⟩]
  transmittingStations := fun dv w =>
    if dv == 1 && w == 1 then some [⟨"S1", 1, 1, none, none⟩] else none
  transmittingStationByAbbrev := fun _ => none
  stationVariables := fun dv w =>
    if dv == 1 && w == 1 then some [⟨"S1", "FLOW"⟩] else none
  stationVariablesByAbbrev := fun _ _ _ => none

/-- Concrete service fixture: one district whose station list has two
stations but whose parameter rows cover only the first one. -/
def svcHalfParams : SudsService where
  waterDistricts := [⟨1, 1, "D1"⟩]
  transmittingStations := fun dv w =>
    if dv == 1 && w == 1 then
      some [⟨"S1", 1, 1, none, none⟩, ⟨"S2", 1, 1, none, none⟩]
    else none
  transmittingStationByAbbrev := fun _ => none
  stationVariables := fun dv w =>
    if dv == 1 && w == 1 then some [⟨"S1", "FLOW"⟩] else none
  stationVariablesByAbbrev := fun _ _ _ => none

/-- Concrete service fixture with two districts: the first has a station
list but no parameter rows, the second has no station list at all. -/
def svcTwoBad : SudsService where
  waterDistricts := [⟨1, 1, "D1"⟩, ⟨1, 2, "D2"⟩]
  transmittingStations := fun dv w =>
    if dv == 1 && w == 1 then some [⟨"S1", 1, 1, none, none⟩] else none
  transmittingStationByAbbrev := fun _ => none
  stationVariables := fun _ _ => none
  stationVariablesByAbbrev := fun _ _ _ => none

/-- Concrete service fixture with two districts: the first resolves
cleanly to one fully parameterized station, the second has no station
list. -/
def svcGoodThenMissing : SudsService where
  waterDistricts := [⟨1, 1, "D1"⟩, ⟨1, 2, "D2"⟩]
  transmittingStations := fun dv w =>
    if dv == 1 && w == 1 then some [⟨"S1", 1, 1, none, none⟩] else none
  transmittingStationByAbbrev := fun _ => none
  stationVariables := fun dv w =>
    if dv == 1 && w == 1 then some [⟨"S1", "FLOW"⟩] else none
  stationVariablesByAbbrev := fun _ _ _ => none

/-- Concrete service fixture: the three-district catalog of the resolver
examples, with no station data. -/
def svcCatalog3 : SudsService where
  waterDistricts :=
    [⟨1, 1, "South Platte"⟩, ⟨1, 2, "Greeley"⟩, ⟨2, 5, "Arkansas"⟩]
  transmittingStations := fun _ _ => none
  transmittingStationByAbbrev := fun _ => none
  stationVariables := fun _ _ => none
  stationVariablesByAbbrev := fun _ _ _ => none

theorem all_isInt_map (l : List Int) :
    ((l.map PyVal.vInt).all PyVal.isInt) = true := by
  induction l with
  | nil => rfl
  | cons a as ih => simp [PyVal.isInt, ih]

theorem all_sameKind_vInt_map (a : Int) (l : List Int) :
    ((l.map PyVal.vInt).all (PyVal.sameKind (PyVal.vInt a))) = true := by
  induction l with
  | nil => rfl
  | cons b bs ih => simp [PyVal.sameKind, ih]

theorem all_sameKind_vStr_map (a : String) (l : List String) :
    ((l.map PyVal.vStr).all (PyVal.sameKind (PyVal.vStr a))) = true := by
  induction l with
  | nil => rfl
  | cons b bs ih => simp [PyVal.sameKind, ih]

theorem beq_map_vInt_sentinel (l : List Int) :
    ((l.map PyVal.vInt) == [PyVal.vInt 0]) = decide (l = [0]) := by
  apply Bool.eq_iff_iff.mpr
  simp only [beq_iff_eq, decide_eq_true_eq]
  constructor
  · intro h
    cases l with
    | nil => simp at h
    | cons a as =>
      cases as with
      | nil =>
        simp only [List.map_cons, List.map_nil, List.cons.injEq,
          PyVal.vInt.injEq, and_true] at h
        simp [h]
      | cons b bs => simp at h
  · intro h; simp [h]

theorem contains_map_vInt (l : List Int) (n : Int) :
    ((l.map PyVal.vInt).contains (PyVal.vInt n)) = decide (n ∈ l) := by
  apply Bool.eq_iff_iff.mpr
  simp [List.elem_iff, PyVal.vInt.injEq]

theorem get_water_district_valid (svc : SudsService) (divL : List PyVal)
    (w0 : PyVal) (ws : List PyVal)
    (hdiv : divL.all PyVal.isInt = true)
    (hw : ((w0 :: ws).all (PyVal.sameKind w0)) = true) :
    get_water_district svc (.list divL) (.list (w0 :: ws)) =
      .ok (nonEmptyOpt (svc.waterDistricts.filter fun e =>
            (divL == [PyVal.vInt 0] || divL.contains (PyVal.vInt e.div)) &&
            district_matches (w0 :: ws) e)) := by
  simp only [get_water_district, ensureList, hdiv, hw, Bool.not_true,
    Bool.false_eq_true, if_false]

theorem get_water_district_empty_wd (svc : SudsService) (divL : List PyVal)
    (hdiv : divL.all PyVal.isInt = true) :
    get_water_district svc (.list divL) (.list []) = .error .indexError := by
  simp only [get_water_district, ensureList, hdiv, Bool.not_true,
    Bool.false_eq_true, if_false]

theorem attachDistrictName_div (dists : List WaterDistrict) (site : Station) :
    (attachDistrictName dists site).div = site.div := by
  unfold attachDistrictName; split <;> rfl

theorem attachDistrictName_wd (dists : List WaterDistrict) (site : Station) :
    (attachDistrictName dists site).wd = site.wd := by
  unfold attachDistrictName; split <;> rfl

theorem attachDistrictName_abbrevName (dists : List WaterDistrict) (site : Station) :
    (attachDistrictName dists site).abbrevName = site.abbrevName := by
  unfold attachDistrictName; split <;> rfl

theorem buildStations_ok (d : WaterDistrict) (rows : List StationVariable) :
    ∀ sites : List Station,
    (∀ s ∈ sites, (rows.filter fun r => r.abbrevName == s.abbrevName) ≠ []) →
    buildStations d rows sites = .ok (sites.map fun s =>
      { s with waterDistrictName := some d.waterDistrictName,
               parameters := some (paramsFor rows s.abbrevName) }) := by
  intro sites
  induction sites with
  | nil => intro _; rfl
  | cons s rest ih =>
    intro h
    have hs := h s (List.mem_cons_self s rest)
    have hIsEmpty : (rows.filter fun r => r.abbrevName == s.abbrevName).isEmpty = false := by
      simp only [List.isEmpty_eq_false]
      exact hs
    simp only [buildStations, hIsEmpty, Bool.false_eq_true, if_false,
      ih (fun s' hs' => h s' (List.mem_cons_of_mem _ hs')), List.map_cons]

theorem buildStations_error (d : WaterDistrict) (rows : List StationVariable) :
    ∀ sites : List Station,
    (∃ s ∈ sites, (rows.filter fun r => r.abbrevName == s.abbrevName) = []) →
    buildStations d rows sites = .error .unmatchedStationParameters := by
  intro sites
  induction sites with
  | nil => intro h; simp at h
  | cons s rest ih =>
    intro h
    by_cases hc : (rows.filter fun r => r.abbrevName == s.abbrevName).isEmpty = true
    · simp only [buildStations, hc, if_true]
    · have hcf : (rows.filter fun r => r.abbrevName == s.abbrevName).isEmpty = false :=
        Bool.not_eq_true _ ▸ eq_false_of_ne_true hc
      obtain ⟨s', hs', hfil⟩ := h
      have hs'rest : s' ∈ rest := by
        rcases List.mem_cons.mp hs' with heq | hmem
        · exfalso
          apply hc
          rw [heq] at hfil
          rw [hfil]
          rfl
        · exact hmem
      simp only [buildStations, hcf, Bool.false_eq_true, if_false,
        ih ⟨s', hs'rest, hfil⟩]

theorem modeA_loop_ok (svc : SudsService) (sites : WaterDistrict → List Station)
    (rows : WaterDistrict → List StationVariable) :
    ∀ ds : List WaterDistrict,
    (∀ d ∈ ds, svc.transmittingStations d.div d.wd = some (sites d)) →
    (∀ d ∈ ds, svc.stationVariables d.div d.wd = some (rows d)) →
    (∀ d ∈ ds, ∀ s ∈ sites d,
      ((rows d).filter fun r => r.abbrevName == s.abbrevName) ≠ []) →
    modeA_loop svc ds = .ok (some (ds.flatMap fun d => (sites d).map fun s =>
      { s with waterDistrictName := some d.waterDistrictName,
               parameters := some (paramsFor (rows d) s.abbrevName) })) := by
  intro ds
  induction ds with
  | nil => intro _ _ _; rfl
  | cons d rest ih =>
    intro hsites hrows hcover
    simp only [modeA_loop, hsites d (List.mem_cons_self d rest),
      hrows d (List.mem_cons_self d rest),
      buildStations_ok d (rows d) (sites d) (hcover d (List.mem_cons_self d rest)),
      ih (fun d' h => hsites d' (List.mem_cons_of_mem _ h))
        (fun d' h => hrows d' (List.mem_cons_of_mem _ h))
        (fun d' h => hcover d' (List.mem_cons_of_mem _ h)),
      List.flatMap_cons]

theorem modeA_loop_clean_prefix (svc : SudsService)
    (sites : WaterDistrict → List Station)
    (rows : WaterDistrict → List StationVariable) (d : WaterDistrict)
    (post : List WaterDistrict) (hd : svc.transmittingStations d.div d.wd = none) :
    ∀ pre : List WaterDistrict,
    (∀ p ∈ pre, svc.transmittingStations p.div p.wd = some (sites p) ∧
      svc.stationVariables p.div p.wd = some (rows p) ∧
      ∀ s ∈ sites p, ((rows p).filter fun r => r.abbrevName == s.abbrevName) ≠ []) →
    modeA_loop svc (pre ++ d :: post) = .ok none := by
  intro pre
  induction pre with
  | nil => intro _; simp only [List.nil_append, modeA_loop, hd]
  | cons p pre' ih =>
    intro hclean
    have hp := hclean p (List.mem_cons_self p pre')
    simp only [List.cons_append, modeA_loop, List.append_eq, hp.1, hp.2.1,
      buildStations_ok p (rows p) (sites p) hp.2.2,
      ih (fun q h => hclean q (List.mem_cons_of_mem _ h))]

theorem any_map_vStr (l : List String) (nm : String) :
    ((l.map PyVal.vStr).any fun frag =>
      match frag with
      | PyVal.vStr s => strLowerIn s nm
      | PyVal.vInt _ => false) =
    (l.any fun s => strLowerIn s nm) := by
  induction l with
  | nil => rfl
  | cons b bs ih => simp only [List.map_cons, List.any_cons, ih]

/-- C3: get_water_district returns exactly the catalog entries satisfying
both conditions: the divisions filter is the all-match sentinel or the
entry division is a member of it, and, for a numeric district filter, the
all-match sentinel or membership of the entry district id, while for a
string-fragment district filter, at least one fragment being a
case-insensitive substring of the entry district name. -/
theorem C3_water_district_filter (svc : SudsService) (dvs wdsI : List Int)
    (wdsS : List String) (hI : wdsI ≠ []) (hS : wdsS ≠ []) :
    (get_water_district svc (PyArg.list (dvs.map PyVal.vInt))
        (PyArg.list (wdsI.map PyVal.vInt)) =
      .ok (nonEmptyOpt (svc.waterDistricts.filter fun e =>
        (decide (dvs = [0]) || decide (e.div ∈ dvs)) &&
        (decide (wdsI = [0]) || decide (e.wd ∈ wdsI))))) ∧
    (get_water_district svc (PyArg.list (dvs.map PyVal.vInt))
        (PyArg.list (wdsS.map PyVal.vStr)) =
      .ok (nonEmptyOpt (svc.waterDistricts.filter fun e =>
        (decide (dvs = [0]) || decide (e.div ∈ dvs)) &&
        (wdsS.any fun frag => strLowerIn frag e.waterDistrictName)))) := by
  constructor
  · cases wdsI with
    | nil => exact absurd rfl hI
    | cons a as =>
      rw [List.map_cons,
        get_water_district_valid svc _ _ _ (all_isInt_map dvs)
          (by simp [PyVal.sameKind, all_sameKind_vInt_map a as])]
      have hfil : (svc.waterDistricts.filter fun e =>
          ((dvs.map PyVal.vInt) == [PyVal.vInt 0] ||
            (dvs.map PyVal.vInt).contains (PyVal.vInt e.div)) &&
          district_matches (PyVal.vInt a :: as.map PyVal.vInt) e) =
          svc.waterDistricts.filter fun e =>
          (decide (dvs = [0]) || decide (e.div ∈ dvs)) &&
          (decide (a :: as = [0]) || decide (e.wd ∈ a :: as)) := by
        apply List.filter_congr
        intro e _
        have hdm : district_matches (PyVal.vInt a :: as.map PyVal.vInt) e =
            ((PyVal.vInt a :: as.map PyVal.vInt) == [PyVal.vInt 0] ||
              (PyVal.vInt a :: as.map PyVal.vInt).contains (PyVal.vInt e.wd)) := rfl
        rw [hdm,
          show (PyVal.vInt a :: as.map PyVal.vInt) = ((a :: as).map PyVal.vInt) from rfl,
          beq_map_vInt_sentinel, contains_map_vInt,
          beq_map_vInt_sentinel, contains_map_vInt]
      rw [hfil]
  · cases wdsS with
    | nil => exact absurd rfl hS
    | cons a as =>
      rw [List.map_cons,
        get_water_district_valid svc _ _ _ (all_isInt_map dvs)
          (by simp [PyVal.sameKind, all_sameKind_vStr_map a as])]
      have hfil : (svc.waterDistricts.filter fun e =>
          ((dvs.map PyVal.vInt) == [PyVal.vInt 0] ||
            (dvs.map PyVal.vInt).contains (PyVal.vInt e.div)) &&
          district_matches (PyVal.vStr a :: as.map PyVal.vStr) e) =
          svc.waterDistricts.filter fun e =>
          (decide (dvs = [0]) || decide (e.div ∈ dvs)) &&
          ((a :: as).any fun frag => strLowerIn frag e.waterDistrictName) := by
        apply List.filter_congr
        intro e _
        have hdm : district_matches (PyVal.vStr a :: as.map PyVal.vStr) e =
            (((a :: as).map PyVal.vStr).any fun frag =>
              match frag with
              | PyVal.vStr s => strLowerIn s e.waterDistrictName
              | PyVal.vInt _ => false) := rfl
        rw [hdm, beq_map_vInt_sentinel, contains_map_vInt, any_map_vStr]
      rw [hfil]

/-- Witness for C3: the spec catalog examples, one numeric and one
string-fragment instance of the theorem. -/
theorem C3_witness :
    (get_water_district svcCatalog3 (PyArg.list [PyVal.vInt 1])
        (PyArg.list [PyVal.vInt 0]) =
      .ok (some [⟨1, 1, "South Platte"⟩, ⟨1, 2, "Greeley"⟩])) ∧
    (get_water_district svcCatalog3 (PyArg.list [PyVal.vInt 0])
        (PyArg.list [PyVal.vStr "platte"]) =
      .ok (some [⟨1, 1, "South Platte"⟩])) := by
  constructor
  · exact ((C3_water_district_filter svcCatalog3 [1] [0] ["x"]
      (by decide) (by decide)).1).trans (by rfl)
  · exact ((C3_water_district_filter svcCatalog3 [0] [0] ["platte"]
      (by decide) (by decide)).2).trans (by rfl)

/-- C1: in the by-abbreviation mode the source builds a full record for
every abbreviation whose lookup succeeds but never appends it to the
accumulator, so a request for two existing stations and one missing one
returns an absent result instead of the two Station records the
documentation promises.  The first three conjuncts exhibit that the two
stations exist and the third does not; the last one evaluates the call. -/
theorem C1_modeB_result_dropped :
    svcMain.transmittingStationByAbbrev (PyVal.vStr "A1") =
      some ⟨"A1", 1, 1, none, none⟩ ∧
    svcMain.transmittingStationByAbbrev (PyVal.vStr "DOES_NOT_EXIST") = none ∧
    svcMain.transmittingStationByAbbrev (PyVal.vStr "A2") =
      some ⟨"A2", 1, 1, none, none⟩ ∧
    get_station svcMain (.scalar (.vInt 0)) (.scalar (.vInt 0))
      (some (.list [.vStr "A1", .vStr "DOES_NOT_EXIST", .vStr "A2"])) =
      .ok none := ⟨rfl, rfl, rfl, rfl⟩

/-- Counterexample to C2: with an explicit abbreviation filter the district
filter is still consulted; changing only the division filter from a
matching to a non-matching one changes the result of the by-abbreviation
call from an error to an absent value. -/
theorem C2_counterexample :
    get_station svcNoParams (.scalar (.vInt 1)) (.scalar (.vInt 0))
      (some (.scalar (.vStr "A1"))) = .error .missingParameterData ∧
    get_station svcNoParams (.scalar (.vInt 2)) (.scalar (.vInt 0))
      (some (.scalar (.vStr "A1"))) = .ok none := ⟨rfl, rfl⟩

/-- C2 (amended): get_station resolves districts in both modes, before the
mode split; when the station-abbreviation filter is present and district
resolution returns absent, the call returns absent without attempting any
abbreviation lookup, so by-abbreviation results do depend on the
divisions/districts filter. -/
theorem C2_resolver_always_consulted (svc : SudsService) (div wd : PyArg)
    (af : PyArg) (al : List PyVal)
    (hab : checkAbbrev (some af) = .ok (some al))
    (hres : get_water_district svc (.list (ensureList div))
      (.list (ensureList wd)) = .ok none) :
    get_station svc div wd (some af) = .ok none := by
  simp only [get_station, hab, hres]

/-- Witness for C2 (amended): a division filter matching no district makes
the by-abbreviation call absent. -/
theorem C2_witness :
    get_station svcNoParams (.scalar (.vInt 2)) (.scalar (.vInt 0))
      (some (.scalar (.vStr "A1"))) = .ok none :=
  C2_resolver_always_consulted svcNoParams (.scalar (.vInt 2))
    (.scalar (.vInt 0)) (.scalar (.vStr "A1")) [.vStr "A1"] rfl rfl

/-- C4: in the by-district mode, when every resolved district has a station
list and a parameter-row list covering each of its stations, the output is
exactly the per-district concatenation, in order, of one record per
station, carrying the owning district name and the variable
names in remote row order; and each such parameter list is nonempty. -/
theorem C4_modeA_aggregation (svc : SudsService) (div wd : PyArg)
    (ds : List WaterDistrict) (sites : WaterDistrict → List Station)
    (rows : WaterDistrict → List StationVariable)
    (hres : get_water_district svc (.list (ensureList div))
      (.list (ensureList wd)) = .ok (some ds))
    (hsites : ∀ d ∈ ds, svc.transmittingStations d.div d.wd = some (sites d))
    (hrows : ∀ d ∈ ds, svc.stationVariables d.div d.wd = some (rows d))
    (hcover : ∀ d ∈ ds, ∀ s ∈ sites d,
      ((rows d).filter fun r => r.abbrevName == s.abbrevName) ≠ [])
    (hne : (ds.flatMap fun d => (sites d).map fun s =>
        { s with waterDistrictName := some d.waterDistrictName,
                 parameters := some (paramsFor (rows d) s.abbrevName) }) ≠ []) :
    get_station svc div wd none =
      .ok (some (ds.flatMap fun d => (sites d).map fun s =>
        { s with waterDistrictName := some d.waterDistrictName,
                 parameters := some (paramsFor (rows d) s.abbrevName) })) ∧
    ∀ d ∈ ds, ∀ s ∈ sites d, paramsFor (rows d) s.abbrevName ≠ [] := by
  constructor
  · have hloop := modeA_loop_ok svc sites rows ds hsites hrows hcover
    simp only [get_station, checkAbbrev, hres, hloop]
    have hpos : (ds.flatMap fun d => (sites d).map fun s =>
        { s with waterDistrictName := some d.waterDistrictName,
                 parameters := some (paramsFor (rows d) s.abbrevName) }).length > 0 :=
      List.length_pos.mpr hne
    unfold nonEmptyOpt
    rw [if_pos hpos]
  · intro d hd s hs
    have hf := hcover d hd s hs
    simp only [paramsFor, ne_eq, List.map_eq_nil_iff]
    exact hf

/-- Witness for C4: one district with one station and one parameter row
aggregates to one complete record. -/
theorem C4_witness :
    get_station svcOneGood (.scalar (.vInt 1)) (.scalar (.vInt 0)) none =
      .ok (some [⟨"S1", 1, 1, some ["FLOW"], some "D1"⟩]) := by
  have h := C4_modeA_aggregation svcOneGood (.scalar (.vInt 1))
    (.scalar (.vInt 0)) [⟨1, 1, "D1"⟩]
    (fun _ => [⟨"S1", 1, 1, none, none⟩]) (fun _ => [⟨"S1", "FLOW"⟩])
    rfl (by decide) (by decide) (by decide) (by decide)
  exact h.1.trans (by rfl)

/-- Counterexample to C5: a station filter supplied as a list containing a
non-string element is not validated at all; the call proceeds and returns
an absent result instead of failing with the filter-type error. -/
theorem C5_counterexample :
    get_station svcMain (.scalar (.vInt 0)) (.scalar (.vInt 0))
      (some (.list [.vInt 1])) = .ok none ∧
    get_station svcMain (.scalar (.vInt 0)) (.scalar (.vInt 0))
      (some (.list [.vInt 1])) ≠ .error .invalidFilterType := by
  refine ⟨rfl, ?_⟩
  intro hcontra
  rw [show get_station svcMain (.scalar (.vInt 0)) (.scalar (.vInt 0))
      (some (.list [.vInt 1])) = .ok none from rfl] at hcontra
  exact Except.noConfusion hcontra

/-- C5 (amended): a divisions filter with a non-integer element and a mixed
districts filter fail with the filter-type error independently of the
service data, both directly and through get_station; a non-string
station-abbreviation element fails the same way only when supplied as a
scalar (a list-valued abbreviation filter is passed through unvalidated). -/
theorem C5_filter_validation (svc : SudsService) (div wd : PyArg) (v : PyVal)
    (w0 : PyVal) (ws : List PyVal) :
    ((ensureList div).all PyVal.isInt = false →
      get_water_district svc div wd = .error .invalidFilterType) ∧
    ((ensureList div).all PyVal.isInt = true →
      ensureList wd = w0 :: ws →
      ((w0 :: ws).all (PyVal.sameKind w0)) = false →
      get_water_district svc div wd = .error .invalidFilterType) ∧
    (v.isStr = false →
      get_station svc div wd (some (.scalar v)) = .error .invalidFilterType) ∧
    (∀ af : Option PyArg, ∀ al : Option (List PyVal),
      checkAbbrev af = .ok al →
      get_water_district svc (.list (ensureList div)) (.list (ensureList wd)) =
        .error .invalidFilterType →
      get_station svc div wd af = .error .invalidFilterType) := by
  refine ⟨?_, ?_, ?_, ?_⟩
  · intro h
    simp only [get_water_district, h, Bool.not_false, if_true]
  · intro h1 h2 h3
    simp only [get_water_district, h1, Bool.not_true, Bool.false_eq_true,
      if_false, h2, h3, Bool.not_false, if_true]
  · intro h
    simp only [get_station, checkAbbrev, h, Bool.false_eq_true, if_false]
  · intro af al hab hres
    simp only [get_station, hab, hres]

/-- Witness for C5 (amended): concrete instances of the four validation
facts. -/
theorem C5_witness :
    get_water_district svcMain (.list [.vStr "x"]) (.scalar (.vInt 0)) =
      .error .invalidFilterType ∧
    get_water_district svcMain (.scalar (.vInt 0))
      (.list [.vInt 1, .vStr "a"]) = .error .invalidFilterType ∧
    get_station svcMain (.scalar (.vInt 0)) (.scalar (.vInt 0))
      (some (.scalar (.vInt 7))) = .error .invalidFilterType ∧
    get_station svcMain (.list [.vStr "x"]) (.scalar (.vInt 0)) none =
      .error .invalidFilterType := by
  refine ⟨?_, ?_, ?_, ?_⟩
  · exact (C5_filter_validation svcMain (.list [.vStr "x"])
      (.scalar (.vInt 0)) (.vInt 7) (.vInt 1) [.vStr "a"]).1 rfl
  · exact (C5_filter_validation svcMain (.scalar (.vInt 0))
      (.list [.vInt 1, .vStr "a"]) (.vInt 7) (.vInt 1) [.vStr "a"]).2.1
      rfl rfl rfl
  · exact (C5_filter_validation svcMain (.scalar (.vInt 0))
      (.scalar (.vInt 0)) (.vInt 7) (.vInt 1) [.vStr "a"]).2.2.1 rfl
  · exact (C5_filter_validation svcMain (.list [.vStr "x"])
      (.scalar (.vInt 0)) (.vInt 7) (.vInt 1) [.vStr "a"]).2.2.2
      none none rfl
      ((C5_filter_validation svcMain (.list [.vStr "x"])
        (.scalar (.vInt 0)) (.vInt 7) (.vInt 1) [.vStr "a"]).1 rfl)

/-- Counterexample to C6: an empty divisions list matches no catalog entry
(absent result), an empty districts list fails with the index error, and
only the 0 sentinel returns the complete catalog. -/
theorem C6_counterexample :
    get_water_district svcMain (.list []) (.scalar (.vInt 0)) = .ok none ∧
    get_water_district svcMain (.scalar (.vInt 0)) (.list []) =
      .error .indexError ∧
    get_water_district svcMain (.scalar (.vInt 0)) (.scalar (.vInt 0)) =
      .ok (some [⟨1, 1, "District One"⟩]) := ⟨rfl, rfl, rfl⟩

/-- C6 (amended): the match-all sentinel is the 0 value, not emptiness:
with both filters 0 the complete catalog is returned (absent when the
catalog is empty); an empty divisions list matches no entries, and an
empty districts list fails with the index error before any matching. -/
theorem C6_zero_sentinel (svc : SudsService) (w0 : PyVal) (ws divL : List PyVal)
    (hw : ((w0 :: ws).all (PyVal.sameKind w0)) = true)
    (hdiv : divL.all PyVal.isInt = true) :
    (get_water_district svc (.scalar (.vInt 0)) (.scalar (.vInt 0)) =
      .ok (nonEmptyOpt svc.waterDistricts)) ∧
    (get_water_district svc (.list []) (.list (w0 :: ws)) = .ok none) ∧
    (get_water_district svc (.list divL) (.list []) = .error .indexError) := by
  refine ⟨?_, ?_, get_water_district_empty_wd svc divL hdiv⟩
  · have h := get_water_district_valid svc [PyVal.vInt 0] (PyVal.vInt 0) [] rfl rfl
    have hfil : (svc.waterDistricts.filter fun e =>
        (([PyVal.vInt 0] : List PyVal) == [PyVal.vInt 0] ||
          ([PyVal.vInt 0] : List PyVal).contains (PyVal.vInt e.div)) &&
        district_matches [PyVal.vInt 0] e) = svc.waterDistricts := by
      apply List.filter_eq_self.mpr
      intro e _
      rfl
    exact h.trans (congrArg _ (congrArg _ hfil))
  · have h := get_water_district_valid svc [] w0 ws rfl hw
    have hfil : (svc.waterDistricts.filter fun e =>
        (([] : List PyVal) == [PyVal.vInt 0] ||
          ([] : List PyVal).contains (PyVal.vInt e.div)) &&
        district_matches (w0 :: ws) e) = [] := by
      apply List.filter_eq_nil_iff.mpr
      intro e _
      simp
    rw [h, hfil]
    rfl

/-- Witness for C6 (amended): the three facts at the one-district
fixture. -/
theorem C6_witness :
    (get_water_district svcMain (.scalar (.vInt 0)) (.scalar (.vInt 0)) =
      .ok (some [⟨1, 1, "District One"⟩])) ∧
    (get_water_district svcMain (.list []) (.list [.vInt 0]) = .ok none) ∧
    (get_water_district svcMain (.list [.vInt 5]) (.list []) =
      .error .indexError) := by
  have h := C6_zero_sentinel svcMain (.vInt 0) [] [.vInt 5] rfl rfl
  exact ⟨h.1.trans (by rfl), h.2.1, h.2.2⟩

/-- C7: a parameter-listing call returning no data while the station list
is present fails with the missing-parameter error: in the by-district mode
when the first resolved district has a nonempty station list and no
parameter data, and in the by-abbreviation mode when a looked-up station
has no parameter data; neither branch tolerates the inconsistency
silently. -/
theorem C7_missing_parameter_data (svc : SudsService) (div wd : PyArg)
    (d : WaterDistrict) (ds' dists : List WaterDistrict)
    (sites : List Station) (a : PyVal) (rest : List PyVal) (site : Station) :
    ((get_water_district svc (.list (ensureList div)) (.list (ensureList wd)) =
        .ok (some (d :: ds'))) →
      svc.transmittingStations d.div d.wd = some sites →
      sites ≠ [] →
      svc.stationVariables d.div d.wd = none →
      get_station svc div wd none = .error .missingParameterData) ∧
    ((get_water_district svc (.list (ensureList div)) (.list (ensureList wd)) =
        .ok (some dists)) →
      svc.transmittingStationByAbbrev a = some site →
      svc.stationVariablesByAbbrev site.div site.wd site.abbrevName = none →
      get_station svc div wd (some (.list (a :: rest))) =
        .error .missingParameterData) := by
  constructor
  · intro hres hsites _hne hvars
    simp only [get_station, checkAbbrev, hres, modeA_loop, hsites, hvars]
  · intro hres ha hvars
    simp only [get_station, checkAbbrev, hres, modeB_loop, modeB_station, ha,
      attachDistrictName_div, attachDistrictName_wd,
      attachDistrictName_abbrevName, hvars]

/-- Witness for C7: the two modes at concrete fixtures with present
stations and absent parameter data. -/
theorem C7_witness :
    get_station svcTwoBad (.scalar (.vInt 1)) (.scalar (.vInt 0)) none =
      .error .missingParameterData ∧
    get_station svcNoParams (.scalar (.vInt 1)) (.scalar (.vInt 0))
      (some (.list [.vStr "A1"])) = .error .missingParameterData := by
  constructor
  · exact (C7_missing_parameter_data svcTwoBad (.scalar (.vInt 1))
      (.scalar (.vInt 0)) ⟨1, 1, "D1"⟩ [⟨1, 2, "D2"⟩] []
      [⟨"S1", 1, 1, none, none⟩] (.vStr "A1") [] ⟨"A1", 1, 1, none, none⟩).1
      rfl rfl (by decide) rfl
  · exact (C7_missing_parameter_data svcNoParams (.scalar (.vInt 1))
      (.scalar (.vInt 0)) ⟨1, 1, "X"⟩ [] [⟨1, 1, "X"⟩] []
      (.vStr "A1") [] ⟨"A1", 1, 1, none, none⟩).2 rfl rfl rfl

/-- C8: in the by-district mode, a station present in the first resolved
district station list but absent from the parameter grouping makes the
call fail with the unmatched-parameters lookup error rather than
defaulting the parameter list to empty. -/
theorem C8_unmatched_station_parameters (svc : SudsService) (div wd : PyArg)
    (d : WaterDistrict) (ds' : List WaterDistrict) (sites : List Station)
    (rows : List StationVariable)
    (hres : get_water_district svc (.list (ensureList div))
      (.list (ensureList wd)) = .ok (some (d :: ds')))
    (hsites : svc.transmittingStations d.div d.wd = some sites)
    (hrows : svc.stationVariables d.div d.wd = some rows)
    (hbad : ∃ s ∈ sites,
      (rows.filter fun r => r.abbrevName == s.abbrevName) = []) :
    get_station svc div wd none = .error .unmatchedStationParameters := by
  simp only [get_station, checkAbbrev, hres, modeA_loop, hsites, hrows,
    buildStations_error d rows sites hbad]

/-- Witness for C8: a two-station district whose parameter rows cover only
the first station. -/
theorem C8_witness :
    get_station svcHalfParams (.scalar (.vInt 1)) (.scalar (.vInt 0)) none =
      .error .unmatchedStationParameters :=
  C8_unmatched_station_parameters svcHalfParams (.scalar (.vInt 1))
    (.scalar (.vInt 0)) ⟨1, 1, "D1"⟩ []
    [⟨"S1", 1, 1, none, none⟩, ⟨"S2", 1, 1, none, none⟩] [⟨"S1", "FLOW"⟩]
    rfl rfl rfl (by decide)

/-- Counterexample to C9: the second resolved district station-list call
returns no data, yet the aggregation raises (because the first district
fails with missing parameter data first) instead of returning absent. -/
theorem C9_counterexample :
    svcTwoBad.transmittingStations 1 2 = none ∧
    get_water_district svcTwoBad (.scalar (.vInt 1)) (.scalar (.vInt 0)) =
      .ok (some [⟨1, 1, "D1"⟩, ⟨1, 2, "D2"⟩]) ∧
    get_station svcTwoBad (.scalar (.vInt 1)) (.scalar (.vInt 0)) none =
      .error .missingParameterData := ⟨rfl, rfl, rfl⟩

/-- C9 (amended): absent results are a normal outcome: in the by-district
mode get_station returns absent without raising whenever district
resolution returns absent, and whenever a resolved district station-list
call returns no data provided every earlier resolved district was
processed without error (an earlier district error still raises, and the
partial results are discarded); get_water_district never returns a present
empty sequence: a successful result is a nonempty sequence or absent. -/
theorem C9_absent_results (svc : SudsService) (div wd : PyArg)
    (sites : WaterDistrict → List Station)
    (rows : WaterDistrict → List StationVariable)
    (pre post : List WaterDistrict) (d : WaterDistrict)
    (wds : List WaterDistrict) :
    ((get_water_district svc (.list (ensureList div)) (.list (ensureList wd)) =
        .ok none) →
      get_station svc div wd none = .ok none) ∧
    ((get_water_district svc (.list (ensureList div)) (.list (ensureList wd)) =
        .ok (some (pre ++ d :: post))) →
      (∀ p ∈ pre, svc.transmittingStations p.div p.wd = some (sites p) ∧
        svc.stationVariables p.div p.wd = some (rows p) ∧
        ∀ s ∈ sites p,
          ((rows p).filter fun r => r.abbrevName == s.abbrevName) ≠ []) →
      svc.transmittingStations d.div d.wd = none →
      get_station svc div wd none = .ok none) ∧
    (get_water_district svc div wd = .ok (some wds) → wds ≠ []) := by
  refine ⟨?_, ?_, ?_⟩
  · intro hres
    simp only [get_station, checkAbbrev, hres]
  · intro hres hclean hd
    simp only [get_station, checkAbbrev, hres,
      modeA_loop_clean_prefix svc sites rows d post hd pre hclean]
  · intro hres
    simp only [get_water_district] at hres
    split at hres
    · exact Except.noConfusion hres
    · split at hres
      · exact Except.noConfusion hres
      · split at hres
        · exact Except.noConfusion hres
        · have h2 := Except.ok.inj hres
          unfold nonEmptyOpt at h2
          split at h2
          next hlen =>
            cases h2
            exact List.length_pos.mp hlen
          next => exact Option.noConfusion h2

/-- Witness for C9 (amended): the three facts at concrete fixtures. -/
theorem C9_witness :
    get_station svcNoParams (.scalar (.vInt 2)) (.scalar (.vInt 0)) none =
      .ok none ∧
    get_station svcGoodThenMissing (.scalar (.vInt 1)) (.scalar (.vInt 0))
      none = .ok none ∧
    ([⟨1, 1, "District One"⟩] : List WaterDistrict) ≠ [] := by
  refine ⟨?_, ?_, ?_⟩
  · exact (C9_absent_results svcNoParams (.scalar (.vInt 2))
      (.scalar (.vInt 0)) (fun _ => []) (fun _ => []) [] [] ⟨1, 1, "X"⟩ []).1 rfl
  · exact (C9_absent_results svcGoodThenMissing (.scalar (.vInt 1))
      (.scalar (.vInt 0)) (fun _ => [⟨"S1", 1, 1, none, none⟩])
      (fun _ => [⟨"S1", "FLOW"⟩]) [⟨1, 1, "D1"⟩] [] ⟨1, 2, "D2"⟩ []).2.1
      rfl (by decide) rfl
  · exact (C9_absent_results svcMain (.scalar (.vInt 0))
      (.scalar (.vInt 0)) (fun _ => []) (fun _ => []) [] [] ⟨1, 1, "X"⟩
      [⟨1, 1, "District One"⟩]).2.2 rfl

theorem get_client_reuse (st : ClientState) (c : SudsClientObj) (url : String)
    (cp : CachePolicy) (h1 : st.suds_client = some c) (h2 : c.wsdlUrl = url) :
    get_client st url cp = (c, st) := by
  simp [get_client, h1, h2]

theorem get_client_new (st : ClientState) (c : SudsClientObj) (url : String)
    (cp : CachePolicy) (h1 : st.suds_client = some c) (h2 : c.wsdlUrl ≠ url) :
    get_client st url cp = mkNewClient st url cp := by
  simp [get_client, h1, h2]

theorem get_client_invariant (st : ClientState) (url : String)
    (cp : CachePolicy)
    (hwf : ∀ c, st.suds_client = some c → c.clientId < st.nextId) :
    (get_client st url cp).2.suds_client = some (get_client st url cp).1 ∧
    (get_client st url cp).1.wsdlUrl = url ∧
    (get_client st url cp).1.clientId < (get_client st url cp).2.nextId := by
  cases hsc : st.suds_client with
  | none =>
    simp only [get_client, hsc, mkNewClient]
    exact ⟨trivial, trivial, Nat.lt_succ_self _⟩
  | some c =>
    by_cases hc : (c.wsdlUrl == url) = true
    · simp only [get_client, hsc, hc, if_true]
      exact ⟨trivial, eq_of_beq hc, hwf c hsc⟩
    · simp only [get_client, hsc, hc, Bool.false_eq_true, if_false, mkNewClient]
      exact ⟨trivial, trivial, Nat.lt_succ_self _⟩

/-- C10: the session manager keeps at most one live handle: a second call
with the same service address returns the very same handle and state
unchanged, whatever cache policy it passes; a call with a different
address stores a new handle (fresh identity, built for the new address)
replacing the old one, with the given cache policy applied to it. -/
theorem C10_session_reuse (st : ClientState) (url url2 : String)
    (cp cp2 cp3 : CachePolicy)
    (hwf : ∀ c, st.suds_client = some c → c.clientId < st.nextId)
    (hne : url2 ≠ url) :
    (get_client (get_client st url cp).2 url cp2 = get_client st url cp) ∧
    ((get_client (get_client st url cp).2 url2 cp3).2.suds_client =
      some (get_client (get_client st url cp).2 url2 cp3).1 ∧
     (get_client (get_client st url cp).2 url2 cp3).1.wsdlUrl = url2 ∧
     (get_client (get_client st url cp).2 url2 cp3).1.clientId ≠
      (get_client st url cp).1.clientId ∧
     (get_client (get_client st url cp).2 url2 cp3).1.cacheDuration =
      (match cp3 with
       | .off => none
       | .defaultTuple => some ("days", 1)
       | .tuple u n => some (u, n))) := by
  obtain ⟨k1, k2, k3⟩ := get_client_invariant st url cp hwf
  have hnew : get_client (get_client st url cp).2 url2 cp3 =
      mkNewClient (get_client st url cp).2 url2 cp3 :=
    get_client_new _ _ _ _ k1 (by rw [k2]; exact fun h => hne h.symm)
  refine ⟨?_, ?_, ?_, ?_, ?_⟩
  · exact (get_client_reuse _ _ _ _ k1 k2).trans rfl
  · rw [hnew]; rfl
  · rw [hnew]; rfl
  · rw [hnew]
    exact fun h => absurd h.symm (Nat.ne_of_lt k3)
  · rw [hnew]; rfl

/-- Witness for C10: from the fresh state, reuse on the same address and
replacement on a different address with an explicit cache window. -/
theorem C10_witness :
    (get_client (get_client ⟨none, 0⟩ "a" .off).2 "a" .defaultTuple =
      get_client (⟨none, 0⟩ : ClientState) "a" .off) ∧
    ((get_client (get_client ⟨none, 0⟩ "a" .off).2 "b"
        (.tuple "hours" 6)).2.suds_client =
      some (get_client (get_client ⟨none, 0⟩ "a" .off).2 "b"
        (.tuple "hours" 6)).1 ∧
     (get_client (get_client ⟨none, 0⟩ "a" .off).2 "b"
        (.tuple "hours" 6)).1.wsdlUrl = "b" ∧
     (get_client (get_client ⟨none, 0⟩ "a" .off).2 "b"
        (.tuple "hours" 6)).1.clientId ≠
      (get_client (⟨none, 0⟩ : ClientState) "a" .off).1.clientId ∧
     (get_client (get_client ⟨none, 0⟩ "a" .off).2 "b"
        (.tuple "hours" 6)).1.cacheDuration = some ("hours", 6)) := by
  have h := C10_session_reuse ⟨none, 0⟩ "a" "b" .off .defaultTuple
    (.tuple "hours" 6) (fun c hc => Option.noConfusion hc) (by decide)
  exact ⟨h.1, h.2.1, h.2.2.1, h.2.2.2.1, h.2.2.2.2⟩

end Codwr
